import Mathlib

/-!
Shallow embedding of the CodeKanban npm multi-package build pipeline:
the build matrix executor, the ldflags (version-injection) construction,
the platform package descriptor generator, the main package assembler with
its generated Node launcher, and the publish orchestrator.

Sources: build-npm-multipackage.py and publish-all-packages.py.
-/

namespace CodeKanban

/-- One row of the Go → npm platform table in build_go_multiplatform
(build-npm-multipackage.py lines 73-79). -/
structure BuildTarget where
  goos : String
  goarch : String
  npmOS : String
  npmArch : String
deriving DecidableEq

/-- The platform matrix of build_go_multiplatform (lines 73-79). -/
def buildPlatforms : List BuildTarget :=
  [⟨"linux", "amd64", "linux", "x64"⟩,
   ⟨"linux", "arm64", "linux", "arm64"⟩,
   ⟨"darwin", "amd64", "darwin", "x64"⟩,
   ⟨"darwin", "arm64", "darwin", "arm64"⟩,
   ⟨"windows", "amd64", "win32", "x64"⟩]

/-- The npm platform key of a build target: npm_os-npm_arch (line 107). -/
def targetKey (t : BuildTarget) : String := t.npmOS ++ "-" ++ t.npmArch

/-- Keys of the package directories produced by the build matrix. -/
def buildMatrixKeys : List String := buildPlatforms.map targetKey

/-- The platform list of create_platform_packages (lines 147-153). -/
def descriptorPlatforms : List (String × String) :=
  [("win32", "x64"), ("darwin", "x64"), ("darwin", "arm64"),
   ("linux", "x64"), ("linux", "arm64")]

/-- Platform keys enumerated by create_platform_packages (line 174). -/
def descriptorKeys : List String :=
  descriptorPlatforms.map (fun p => p.1 ++ "-" ++ p.2)

/-- The platform list of create_main_package (line 214), used both for the
launcher resolution table and for optionalDependencies. -/
def launcherPlatforms : List String :=
  ["win32-x64", "darwin-x64", "darwin-arm64", "linux-x64", "linux-arm64"]

/-- Whether a package name is scoped, that is, starts with the at sign:
the Python test base_name.startswith of the one-character at-sign string
(lines 158 and 206), modelled on the character list. -/
def isScoped (base : String) : Bool :=
  match base.data with
  | [] => false
  | c :: _ => c == '@'

/-- Platform package naming as performed in create_platform_packages
(lines 158-163 build the template, line 176 formats it with the key). -/
def platformNameInDescriptor (base key : String) : String :=
  if isScoped base then base ++ "-" ++ key else "@" ++ base ++ "/" ++ key

/-- Platform package naming as performed in create_main_package for the
optionalDependencies map (lines 206-211 and 290-293). -/
def platformNameInOptionalDeps (base key : String) : String :=
  if isScoped base then base ++ "-" ++ key else "@" ++ base ++ "/" ++ key

/-- Platform package naming as embedded into the launcher resolution table
(lines 206-211 and 217-219). -/
def platformNameInLauncherTable (base key : String) : String :=
  if isScoped base then base ++ "-" ++ key else "@" ++ base ++ "/" ++ key

/-- The naming rule as the spec words it (section 3, PackageDescriptor naming
rule): scoped main name gives base-key, unscoped gives @base/key.  Kept
separate from the three generator-site definitions so they can be compared. -/
def specPlatformName (base key : String) : String :=
  if isScoped base then base ++ "-" ++ key else "@" ++ base ++ "/" ++ key

/- ------------------------------------------------------------------ -/
/- Version injection flags (build_go_multiplatform lines 84-95).       -/
/- ------------------------------------------------------------------ -/

/-- The -X flag injecting main.VERSION_MAIN (line 87). -/
def mainFlag (v : String) : String := "-X 'main.VERSION_MAIN=" ++ (v ++ "'")

/-- The -X flag injecting main.VERSION_PRERELEASE (line 89). -/
def prereleaseFlag (v : String) : String :=
  "-X 'main.VERSION_PRERELEASE=" ++ (v ++ "'")

/-- The -X flag injecting main.VERSION_BUILD_METADATA (line 91). -/
def buildMetadataFlag (v : String) : String :=
  "-X 'main.VERSION_BUILD_METADATA=" ++ (v ++ "'")

/-- The -X flag injecting main.APP_CHANNEL (line 93). -/
def channelFlag (v : String) : String := "-X 'main.APP_CHANNEL=" ++ (v ++ "'")

/-- ldflags_parts as assembled in build_go_multiplatform (lines 85-93):
always -s -w; VERSION_MAIN only when non-empty; VERSION_PRERELEASE always,
even when empty; VERSION_BUILD_METADATA and APP_CHANNEL only when
non-empty. -/
def ldflagsParts (vm vp vbm ch : String) : List String :=
  ["-s", "-w"]
    ++ (if vm = "" then [] else [mainFlag vm])
    ++ [prereleaseFlag vp]
    ++ (if vbm = "" then [] else [buildMetadataFlag vbm])
    ++ (if ch = "" then [] else [channelFlag ch])

/-- The joined ldflags string (line 95). -/
def ldflags (vm vp vbm ch : String) : String :=
  String.intercalate " " (ldflagsParts vm vp vbm ch)

/- ------------------------------------------------------------------ -/
/- Per-target build environment (lines 111-115).                       -/
/- ------------------------------------------------------------------ -/

/-- Functional update of an environment map, modelling one dict assignment
on a copy of os.environ. -/
def envSet (m : String → Option String) (k v : String) : String → Option String :=
  fun q => if q = k then some v else m q

/-- The environment handed to one toolchain invocation: a copy of the ambient
environment with GOOS, GOARCH and CGO_ENABLED set (lines 112-115). -/
def buildEnvFor (ambient : String → Option String) (t : BuildTarget) :
    String → Option String :=
  envSet (envSet (envSet ambient "GOOS" t.goos) "GOARCH" t.goarch) "CGO_ENABLED" "0"

/-- The build loop of build_go_multiplatform viewed through its environment
effects: for each target a fresh copy of the ambient environment is extended
(lines 111-115) and passed to subprocess.run (line 125); os.environ itself is
never assigned to, so the ambient environment threads through unchanged.
Returns the per-target environments in order and the final ambient
environment. -/
def runMatrixEnvs (ambient : String → Option String) :
    List BuildTarget → List (BuildTarget × (String → Option String)) × (String → Option String)
  | [] => ([], ambient)
  | t :: ts =>
    let e := buildEnvFor ambient t
    let rest := runMatrixEnvs ambient ts
    ((t, e) :: rest.1, rest.2)

/- ------------------------------------------------------------------ -/
/- Build matrix control flow (lines 98-140) and pipeline steps 3-5     -/
/- of main (lines 394-413).                                            -/
/- ------------------------------------------------------------------ -/

/-- The build loop of build_go_multiplatform (lines 98-140), abstracted over
the exit code each toolchain invocation would return.  On the first non-zero
exit it returns immediately (line 129) without touching later targets;
otherwise it records the key of the binary just produced.  Returns the keys
of the targets whose binaries were built and the function's return code. -/
def runMatrix (exitOf : BuildTarget → Int) : List BuildTarget → List String × Int
  | [] => ([], 0)
  | t :: ts =>
    if exitOf t ≠ 0 then ([], exitOf t)
    else
      let rest := runMatrix exitOf ts
      (targetKey t :: rest.1, rest.2)

/-- Observable output of pipeline steps 3-5 of main. -/
structure PipelineOut where
  builtBinaries : List String
  platformManifests : List String
  mainManifestWritten : Bool
  exitCode : Int
deriving DecidableEq

/-- Steps 3-5 of main (lines 394-413): run the build matrix; on non-zero
return propagate it at once, so create_platform_packages (which writes every
platform package.json and marker) and create_main_package never run. -/
def pipelineSteps3to5 (exitOf : BuildTarget → Int) (base : String) : PipelineOut :=
  let r := runMatrix exitOf buildPlatforms
  if r.2 ≠ 0 then ⟨r.1, [], false, r.2⟩
  else ⟨r.1, descriptorKeys.map (platformNameInDescriptor base), true, 0⟩

/- ------------------------------------------------------------------ -/
/- Main package manifest (create_main_package, lines 289-328).         -/
/- ------------------------------------------------------------------ -/

/-- The fields of the main package.json that the claims are about. -/
structure MainPackage where
  name : String
  version : String
  binEntry : String
  optionalDependencies : List (String × String)
deriving DecidableEq

/-- The main package.json written by create_main_package (lines 290-328):
optionalDependencies maps each platform package name to the same version
string used as the manifest's own version (lines 290-293, 296-298). -/
def mainPackageJson (base version : String) : MainPackage :=
  { name := base
    version := version
    binEntry := "npm-bin/codekanban.js"
    optionalDependencies :=
      launcherPlatforms.map (fun p => (platformNameInOptionalDeps base p, version)) }

/- ------------------------------------------------------------------ -/
/- The generated Node launcher (create_main_package, lines 226-281).   -/
/- ------------------------------------------------------------------ -/

/-- The PLATFORMS resolution table embedded in the launcher script
(lines 217-219 and 231-233). -/
def launcherTable (base : String) : List (String × String) :=
  launcherPlatforms.map (fun p => (p, platformNameInLauncherTable base p))

/-- Binary file name chosen by the launcher (line 251). -/
def launcherBinName (platform : String) : String :=
  if platform == "win32" then "codekanban.exe" else "codekanban"

/-- What the launcher reads from its host at invocation time: the runtime
platform and arch, its own argument vector (process.argv.slice(2)), package
resolution (require.resolve, as the directory of the resolved package when it
succeeds), whether spawn raises an error event, and the exit code the child
reports on its exit event (null when code-less). -/
structure LauncherHost where
  platform : String
  arch : String
  argv : List String
  resolveDir : String → Option String
  spawnErr : Option String
  childExit : Option Int

/-- A spawn performed by the launcher (lines 268-271). -/
structure SpawnCall where
  binPath : String
  args : List String
  stdioInherit : Bool
deriving DecidableEq

/-- Outcome of one launcher invocation: exit before any spawn, spawn whose
error event fired, or a spawned child whose exit code is propagated. -/
inductive LauncherResult where
  | earlyExit (stderr : List String) (exitCode : Int)
  | spawnFailed (call : SpawnCall) (stderr : List String) (exitCode : Int)
  | ran (call : SpawnCall) (exitCode : Int)
deriving DecidableEq

/-- The Supported platforms line printed on an unsupported key (line 242):
console.error with the comma-joined Object.keys of the table. -/
def supportedMsg (base : String) : String :=
  "Supported platforms: " ++
    String.intercalate ", " ((launcherTable base).map Prod.fst)

/-- The error lines printed when require.resolve fails (lines 254-263). -/
def remediationMsgs (key pkg base : String) : List String :=
  ["Failed to find binary for " ++ key,
   "Make sure " ++ pkg ++ " is installed",
   "",
   "Try one of the following:",
   "  1. Uninstall and reinstall with npm:",
   "     npm uninstall -g " ++ base,
   "     npm install -g " ++ base,
   "  2. Or uninstall and reinstall with pnpm:",
   "     pnpm uninstall -g " ++ base,
   "     pnpm install -g " ++ base]

/-- The launcher script's behaviour (lines 226-281): build the platform key,
look it up in PLATFORMS, exit 1 with the supported-platform listing when
absent; resolve the platform package, exit 1 with remediation text when that
fails; otherwise spawn the binary with the forwarded argv and inherited
stdio, exiting with the child's code via code-or-zero (line 279). -/
def runLauncher (base : String) (h : LauncherHost) : LauncherResult :=
  let key := h.platform ++ "-" ++ h.arch
  match (launcherTable base).lookup key with
  | none =>
    .earlyExit ["Unsupported platform: " ++ key, supportedMsg base] 1
  | some pkg =>
    match h.resolveDir pkg with
    | none => .earlyExit (remediationMsgs key pkg base) 1
    | some dir =>
      let call : SpawnCall :=
        ⟨dir ++ "/" ++ launcherBinName h.platform, h.argv, true⟩
      match h.spawnErr with
      | some msg => .spawnFailed call ["Failed to start binary: " ++ msg] 1
      | none =>
        match h.childExit with
        | none => .ran call 0
        | some c => .ran call (if c == 0 then 0 else c)

/- ------------------------------------------------------------------ -/
/- Publish orchestrator (publish-all-packages.py).                     -/
/- ------------------------------------------------------------------ -/

/-- The platform list of publish-all-packages.py main (lines 61-67). -/
def publishPlatforms : List String :=
  ["win32-x64", "darwin-x64", "darwin-arm64", "linux-x64", "linux-arm64"]

/-- What the publish orchestrator reads from its world: whether
GITHUB_ACTIONS equals true, the NODE_AUTH_TOKEN variable, the npm whoami
exit code, which directories exist, and the exit code npm publish would
return in each directory (ROOT standing for the repository root). -/
structure PublishWorld where
  githubActions : Bool
  nodeAuthToken : Option String
  whoamiExit : Int
  npmPackagesDirExists : Bool
  mainManifestExists : Bool
  platformDirExists : String → Bool
  publishExit : String → Int

/-- Observable output of one publish run: the directories in which npm
publish was invoked, in order, and the return code of main. -/
structure PublishOut where
  attempts : List String
  code : Int
deriving DecidableEq

/-- The publish command (lines 95-97): --provenance is appended exactly when
running under GitHub Actions, and the same command list is reused for every
package. -/
def publishCmd (w : PublishWorld) : List String :=
  ["npm", "publish", "--access", "public"]
    ++ (if w.githubActions then ["--provenance"] else [])

/-- The platform publishing loop (lines 100-133): skip missing directories,
publish in each existing one, and return the first non-zero publish exit. -/
def publishPlatformsLoop (w : PublishWorld) : List String → List String × Int
  | [] => ([], 0)
  | p :: ps =>
    if w.platformDirExists p then
      if w.publishExit p ≠ 0 then ([p], w.publishExit p)
      else
        let rest := publishPlatformsLoop w ps
        (p :: rest.1, rest.2)
    else publishPlatformsLoop w ps

/-- main of publish-all-packages.py (lines 37-156): precondition checks on
the output directory and the root manifest; the npm whoami pre-flight, whose
failure combined with GitHub Actions and an unset NODE_AUTH_TOKEN returns 1
before any publish (lines 74-90); then the platform loop and the main
package publish, propagating the first failure. -/
def publishAll (w : PublishWorld) : PublishOut :=
  if ¬ w.npmPackagesDirExists then ⟨[], 1⟩
  else if ¬ w.mainManifestExists then ⟨[], 1⟩
  else if w.whoamiExit ≠ 0 ∧ w.githubActions ∧ w.nodeAuthToken = none then ⟨[], 1⟩
  else
    let r := publishPlatformsLoop w publishPlatforms
    if r.2 ≠ 0 then ⟨r.1, r.2⟩
    else
      if w.publishExit "ROOT" ≠ 0 then ⟨r.1 ++ ["ROOT"], w.publishExit "ROOT"⟩
      else ⟨r.1 ++ ["ROOT"], 0⟩

/-- Concrete publish world falsifying the unconditional token check: GitHub
Actions is active, NODE_AUTH_TOKEN is unset, but npm whoami succeeds and
every publish succeeds. -/
def c9World : PublishWorld :=
  { githubActions := true
    nodeAuthToken := none
    whoamiExit := 0
    npmPackagesDirExists := true
    mainManifestExists := true
    platformDirExists := fun _ => true
    publishExit := fun _ => 0 }

/- ------------------------------------------------------------------ -/
/- Helper lemmas.                                                      -/
/- ------------------------------------------------------------------ -/

/-- Appending on the left of strings is cancellative. -/
theorem string_append_left_cancel {a b c : String} (h : a ++ b = a ++ c) : b = c := by
  have hd := congrArg String.data h
  rw [String.data_append, String.data_append] at hd
  exact String.ext (List.append_cancel_left hd)

/-- For a fixed main package name, the platform package name determines the
platform key. -/
theorem platformName_injective (base : String) :
    Function.Injective (platformNameInOptionalDeps base) := by
  intro k1 k2 h
  by_cases hb : isScoped base = true <;>
    simp only [platformNameInOptionalDeps, hb, if_true, if_false, Bool.false_eq_true] at h <;>
    exact string_append_left_cancel h

/-- The return code of the build loop is zero exactly when every target's
toolchain invocation exits zero. -/
theorem runMatrix_code_eq_zero_iff (exitOf : BuildTarget → Int) (l : List BuildTarget) :
    (runMatrix exitOf l).2 = 0 ↔ ∀ t ∈ l, exitOf t = 0 := by
  induction l with
  | nil => simp [runMatrix]
  | cons t ts ih =>
    by_cases h : exitOf t = 0
    · simp [runMatrix, h, ih]
    · simp [runMatrix, h]

/-- The build loop produces binaries exactly for the prefix of targets that
precede the first failing one. -/
theorem runMatrix_built (exitOf : BuildTarget → Int) (l : List BuildTarget) :
    (runMatrix exitOf l).1 =
      (l.takeWhile (fun u => exitOf u == 0)).map targetKey := by
  induction l with
  | nil => simp [runMatrix]
  | cons t ts ih =>
    by_cases h : exitOf t = 0
    · simp [runMatrix, h, List.takeWhile_cons, ih]
    · simp [runMatrix, h, List.takeWhile_cons]

/- ------------------------------------------------------------------ -/
/- Claim theorems.                                                     -/
/- ------------------------------------------------------------------ -/

/-- C1: platform package naming is one pure function of the main package
name and the platform key, applied identically in the platform-package
descriptor generator, the optionalDependencies map and the launcher's
resolution table; for a scoped main name it is base-key and for an unscoped
main name it is @base/key. -/
theorem c1_platform_naming (base key : String) :
    platformNameInDescriptor base key = specPlatformName base key ∧
    platformNameInOptionalDeps base key = specPlatformName base key ∧
    platformNameInLauncherTable base key = specPlatformName base key ∧
    (isScoped base = true → specPlatformName base key = base ++ "-" ++ key) ∧
    (isScoped base = false → specPlatformName base key = "@" ++ base ++ "/" ++ key) := by
  refine ⟨rfl, rfl, rfl, ?_, ?_⟩ <;> intro h <;> simp [specPlatformName, h]

/-- C1 witness: the naming rule evaluated at a scoped and at an unscoped
main package name. -/
theorem c1_platform_naming_witness :
    platformNameInDescriptor "@scope/name" "win32-x64" =
      specPlatformName "@scope/name" "win32-x64" ∧
    specPlatformName "@scope/name" "win32-x64" = "@scope/name-win32-x64" ∧
    specPlatformName "codekanban" "linux-arm64" = "@codekanban/linux-arm64" := by
  refine ⟨(c1_platform_naming "@scope/name" "win32-x64").1, ?_, ?_⟩
  · rw [(c1_platform_naming "@scope/name" "win32-x64").2.2.2.1 (by decide)]
    decide
  · rw [(c1_platform_naming "codekanban" "linux-arm64").2.2.2.2 (by decide)]
    decide

/-- C2: the key set of the launcher's embedded resolution table equals
exactly the set of npm platform keys enumerated by the build matrix and by
the platform package descriptor generator. -/
theorem c2_resolution_table_keys (base : String) :
    ((launcherTable base).map Prod.fst).toFinset = buildMatrixKeys.toFinset ∧
    ((launcherTable base).map Prod.fst).toFinset = descriptorKeys.toFinset := by
  have h : (launcherTable base).map Prod.fst = launcherPlatforms := rfl
  rw [h]
  exact ⟨by decide, by decide⟩

/-- C3: if any target's toolchain invocation exits non-zero, the pipeline's
exit code is non-zero, no platform package manifest and no main package
manifest is written, and binaries exist only for the targets that preceded
the first failing one. -/
theorem c3_fail_fast (exitOf : BuildTarget → Int) (base : String) (t : BuildTarget)
    (ht : t ∈ buildPlatforms) (hf : exitOf t ≠ 0) :
    (pipelineSteps3to5 exitOf base).exitCode ≠ 0 ∧
    (pipelineSteps3to5 exitOf base).platformManifests = [] ∧
    (pipelineSteps3to5 exitOf base).mainManifestWritten = false ∧
    (pipelineSteps3to5 exitOf base).builtBinaries =
      (buildPlatforms.takeWhile (fun u => exitOf u == 0)).map targetKey := by
  have hr : (runMatrix exitOf buildPlatforms).2 ≠ 0 := by
    rw [Ne, runMatrix_code_eq_zero_iff]
    push_neg
    exact ⟨t, ht, hf⟩
  refine ⟨?_, ?_, ?_, ?_⟩ <;>
    simp [pipelineSteps3to5, hr, runMatrix_built]

/-- C3 witness: a run in which the darwin/amd64 build fails produces no
manifests, has a non-zero exit code, and built only the two targets before
the failure. -/
theorem c3_fail_fast_witness :
    (pipelineSteps3to5
        (fun u => if u.goos == "darwin" && u.goarch == "amd64" then 1 else 0)
        "codekanban").platformManifests = [] ∧
    (pipelineSteps3to5
        (fun u => if u.goos == "darwin" && u.goarch == "amd64" then 1 else 0)
        "codekanban").exitCode ≠ 0 ∧
    (pipelineSteps3to5
        (fun u => if u.goos == "darwin" && u.goarch == "amd64" then 1 else 0)
        "codekanban").builtBinaries = ["linux-x64", "linux-arm64"] := by
  have h := c3_fail_fast
    (fun u => if u.goos == "darwin" && u.goarch == "amd64" then 1 else 0)
    "codekanban" ⟨"darwin", "amd64", "darwin", "x64"⟩ (by decide) (by decide)
  refine ⟨h.2.1, h.1, ?_⟩
  rw [h.2.2.2]
  decide

/-- C4: for every version and main package name, the main manifest's
optionalDependencies has exactly one entry per platform key (five, with
pairwise distinct names, one per catalog entry), every entry's version is
the given version, and the manifest's own version field is that same
value. -/
theorem c4_optional_dependencies (base v : String) :
    (mainPackageJson base v).version = v ∧
    (mainPackageJson base v).optionalDependencies.length = 5 ∧
    (mainPackageJson base v).optionalDependencies.map Prod.fst =
      launcherPlatforms.map (platformNameInOptionalDeps base) ∧
    ((mainPackageJson base v).optionalDependencies.map Prod.fst).Nodup ∧
    ∀ e ∈ (mainPackageJson base v).optionalDependencies, e.2 = v := by
  have hfst : (mainPackageJson base v).optionalDependencies.map Prod.fst =
      launcherPlatforms.map (platformNameInOptionalDeps base) := by
    simp [mainPackageJson]
  refine ⟨rfl, rfl, hfst, ?_, ?_⟩
  · rw [hfst]
    exact List.Nodup.map (platformName_injective base) (by decide)
  · intro e he
    simp only [mainPackageJson, List.mem_map] at he
    obtain ⟨p, _, rfl⟩ := he
    rfl

/-- C4 witness: the main manifest at version 1.2.3 for package codekanban
has five distinct optionalDependencies entries and the entry for win32-x64
carries version 1.2.3. -/
theorem c4_optional_dependencies_witness :
    (mainPackageJson "codekanban" "1.2.3").version = "1.2.3" ∧
    (mainPackageJson "codekanban" "1.2.3").optionalDependencies.length = 5 ∧
    ((mainPackageJson "codekanban" "1.2.3").optionalDependencies.map Prod.fst).Nodup ∧
    Prod.snd (("@codekanban/win32-x64", "1.2.3") : String × String) = "1.2.3" :=
  have h := c4_optional_dependencies "codekanban" "1.2.3"
  ⟨h.1, h.2.1, h.2.2.2.1,
   h.2.2.2.2 ("@codekanban/win32-x64", "1.2.3") (by decide)⟩

/-- A string shorter than p cannot be p with something appended. -/
theorem append_ne_of_length_lt {p x : String} (s : String)
    (h : x.length < p.length) : p ++ s ≠ x := by
  intro he
  have hl := congrArg String.length he
  rw [String.length_append] at hl
  omega

/-- Two appends whose concrete heads are incomparable as prefixes are
distinct strings. -/
theorem append_ne_append_of_heads {p q : String} (s t : String)
    (h1 : ¬ p.data <+: q.data) (h2 : ¬ q.data <+: p.data) : p ++ s ≠ q ++ t := by
  intro he
  have hd := congrArg String.data he
  rw [String.data_append, String.data_append] at hd
  have hp : p.data <+: q.data ++ t.data := hd ▸ List.prefix_append p.data s.data
  have hor := List.prefix_or_prefix_of_prefix hp (List.prefix_append q.data t.data)
  cases hor with
  | inl hh => exact h1 hh
  | inr hh => exact h2 hh

/-- The VERSION_MAIN flag never coincides with the VERSION_PRERELEASE flag. -/
theorem mainFlag_ne_prereleaseFlag (v w : String) : mainFlag v ≠ prereleaseFlag w := by
  simp only [mainFlag, prereleaseFlag]
  exact append_ne_append_of_heads _ _ (by decide) (by decide)

/-- The VERSION_MAIN flag never coincides with the VERSION_BUILD_METADATA flag. -/
theorem mainFlag_ne_buildMetadataFlag (v w : String) :
    mainFlag v ≠ buildMetadataFlag w := by
  simp only [mainFlag, buildMetadataFlag]
  exact append_ne_append_of_heads _ _ (by decide) (by decide)

/-- The VERSION_MAIN flag never coincides with the APP_CHANNEL flag. -/
theorem mainFlag_ne_channelFlag (v w : String) : mainFlag v ≠ channelFlag w := by
  simp only [mainFlag, channelFlag]
  exact append_ne_append_of_heads _ _ (by decide) (by decide)

/-- The VERSION_PRERELEASE flag never coincides with the
VERSION_BUILD_METADATA flag. -/
theorem prereleaseFlag_ne_buildMetadataFlag (v w : String) :
    prereleaseFlag v ≠ buildMetadataFlag w := by
  simp only [prereleaseFlag, buildMetadataFlag]
  exact append_ne_append_of_heads _ _ (by decide) (by decide)

/-- The VERSION_PRERELEASE flag never coincides with the APP_CHANNEL flag. -/
theorem prereleaseFlag_ne_channelFlag (v w : String) :
    prereleaseFlag v ≠ channelFlag w := by
  simp only [prereleaseFlag, channelFlag]
  exact append_ne_append_of_heads _ _ (by decide) (by decide)

/-- The VERSION_BUILD_METADATA flag never coincides with the APP_CHANNEL
flag. -/
theorem buildMetadataFlag_ne_channelFlag (v w : String) :
    buildMetadataFlag v ≠ channelFlag w := by
  simp only [buildMetadataFlag, channelFlag]
  exact append_ne_append_of_heads _ _ (by decide) (by decide)

/-- The VERSION_MAIN flag is never the strip flag -s. -/
theorem mainFlag_ne_s (v : String) : mainFlag v ≠ "-s" := by
  simp only [mainFlag]
  exact append_ne_of_length_lt _ (by decide)

/-- The VERSION_MAIN flag is never the strip flag -w. -/
theorem mainFlag_ne_w (v : String) : mainFlag v ≠ "-w" := by
  simp only [mainFlag]
  exact append_ne_of_length_lt _ (by decide)

/-- The VERSION_BUILD_METADATA flag is never the strip flag -s. -/
theorem buildMetadataFlag_ne_s (v : String) : buildMetadataFlag v ≠ "-s" := by
  simp only [buildMetadataFlag]
  exact append_ne_of_length_lt _ (by decide)

/-- The VERSION_BUILD_METADATA flag is never the strip flag -w. -/
theorem buildMetadataFlag_ne_w (v : String) : buildMetadataFlag v ≠ "-w" := by
  simp only [buildMetadataFlag]
  exact append_ne_of_length_lt _ (by decide)

/-- The APP_CHANNEL flag is never the strip flag -s. -/
theorem channelFlag_ne_s (v : String) : channelFlag v ≠ "-s" := by
  simp only [channelFlag]
  exact append_ne_of_length_lt _ (by decide)

/-- The APP_CHANNEL flag is never the strip flag -w. -/
theorem channelFlag_ne_w (v : String) : channelFlag v ≠ "-w" := by
  simp only [channelFlag]
  exact append_ne_of_length_lt _ (by decide)

/-- The PRERELEASE flag is never the strip flag -s. -/
theorem prereleaseFlag_ne_s (v : String) : prereleaseFlag v ≠ "-s" := by
  simp only [prereleaseFlag]
  exact append_ne_of_length_lt _ (by decide)

/-- The PRERELEASE flag is never the strip flag -w. -/
theorem prereleaseFlag_ne_w (v : String) : prereleaseFlag v ≠ "-w" := by
  simp only [prereleaseFlag]
  exact append_ne_of_length_lt _ (by decide)

/-- Membership in the assembled ldflags parts, characterized. -/
theorem mem_ldflagsParts_iff (x vm vp vbm ch : String) :
    x ∈ ldflagsParts vm vp vbm ch ↔
      x = "-s" ∨ x = "-w" ∨ (vm ≠ "" ∧ x = mainFlag vm) ∨
        x = prereleaseFlag vp ∨ (vbm ≠ "" ∧ x = buildMetadataFlag vbm) ∨
        (ch ≠ "" ∧ x = channelFlag ch) := by
  by_cases h1 : vm = "" <;> by_cases h2 : vbm = "" <;> by_cases h3 : ch = "" <;>
    simp [ldflagsParts, h1, h2, h3]

/-- C5: for every combination of the four version-injection inputs, the
prerelease -X flag is always among the ldflags parts, even when its value is
empty, while the main, build-metadata and channel -X flags are present if
and only if their values are non-empty. -/
theorem c5_version_injection (vm vp vbm ch : String) :
    prereleaseFlag vp ∈ ldflagsParts vm vp vbm ch ∧
    (mainFlag vm ∈ ldflagsParts vm vp vbm ch ↔ vm ≠ "") ∧
    (buildMetadataFlag vbm ∈ ldflagsParts vm vp vbm ch ↔ vbm ≠ "") ∧
    (channelFlag ch ∈ ldflagsParts vm vp vbm ch ↔ ch ≠ "") := by
  refine ⟨?_, ⟨?_, ?_⟩, ⟨?_, ?_⟩, ⟨?_, ?_⟩⟩
  · rw [mem_ldflagsParts_iff]
    exact Or.inr (Or.inr (Or.inr (Or.inl rfl)))
  · intro hm
    rcases (mem_ldflagsParts_iff _ vm vp vbm ch).mp hm with h | h | h | h | h | h
    · exact absurd h (mainFlag_ne_s vm)
    · exact absurd h (mainFlag_ne_w vm)
    · exact h.1
    · exact absurd h (mainFlag_ne_prereleaseFlag vm vp)
    · exact absurd h.2 (mainFlag_ne_buildMetadataFlag vm vbm)
    · exact absurd h.2 (mainFlag_ne_channelFlag vm ch)
  · intro hv
    rw [mem_ldflagsParts_iff]
    exact Or.inr (Or.inr (Or.inl ⟨hv, rfl⟩))
  · intro hm
    rcases (mem_ldflagsParts_iff _ vm vp vbm ch).mp hm with h | h | h | h | h | h
    · exact absurd h (buildMetadataFlag_ne_s vbm)
    · exact absurd h (buildMetadataFlag_ne_w vbm)
    · exact absurd h.2 (Ne.symm (mainFlag_ne_buildMetadataFlag vm vbm))
    · exact absurd h (Ne.symm (prereleaseFlag_ne_buildMetadataFlag vp vbm))
    · exact h.1
    · exact absurd h.2 (buildMetadataFlag_ne_channelFlag vbm ch)
  · intro hv
    rw [mem_ldflagsParts_iff]
    exact Or.inr (Or.inr (Or.inr (Or.inr (Or.inl ⟨hv, rfl⟩))))
  · intro hm
    rcases (mem_ldflagsParts_iff _ vm vp vbm ch).mp hm with h | h | h | h | h | h
    · exact absurd h (channelFlag_ne_s ch)
    · exact absurd h (channelFlag_ne_w ch)
    · exact absurd h.2 (Ne.symm (mainFlag_ne_channelFlag vm ch))
    · exact absurd h (Ne.symm (prereleaseFlag_ne_channelFlag vp ch))
    · exact absurd h.2 (Ne.symm (buildMetadataFlag_ne_channelFlag vbm ch))
    · exact h.1
  · intro hv
    rw [mem_ldflagsParts_iff]
    exact Or.inr (Or.inr (Or.inr (Or.inr (Or.inr ⟨hv, rfl⟩))))

/-- C5 witness: with main version 1.2.3, empty prerelease, empty build
metadata and channel stable, the empty prerelease flag is passed, the main
and channel flags are passed, and the build-metadata flag is not. -/
theorem c5_version_injection_witness :
    prereleaseFlag "" ∈ ldflagsParts "1.2.3" "" "" "stable" ∧
    mainFlag "1.2.3" ∈ ldflagsParts "1.2.3" "" "" "stable" ∧
    channelFlag "stable" ∈ ldflagsParts "1.2.3" "" "" "stable" ∧
    buildMetadataFlag "" ∉ ldflagsParts "1.2.3" "" "" "stable" :=
  have h := c5_version_injection "1.2.3" "" "" "stable"
  ⟨h.1, h.2.1.mpr (by decide), h.2.2.2.mpr (by decide),
   fun hm => absurd (h.2.2.1.mp hm) (by simp)⟩

set_option maxRecDepth 8192 in
/-- C6: on a host whose platform-arch key is absent from the launcher's
resolution table, the launcher exits with code 1 after writing an error that
enumerates every supported platform key, and never spawns a binary. -/
theorem c6_unsupported_platform (base : String) (h : LauncherHost)
    (hk : (launcherTable base).lookup (h.platform ++ "-" ++ h.arch) = none) :
    runLauncher base h =
      .earlyExit ["Unsupported platform: " ++ (h.platform ++ "-" ++ h.arch),
        supportedMsg base] 1 ∧
    (∀ k ∈ launcherPlatforms, k.data <:+: (supportedMsg base).data) ∧
    (∀ call msgs code, runLauncher base h ≠ .spawnFailed call msgs code) ∧
    (∀ call code, runLauncher base h ≠ .ran call code) := by
  have heq : runLauncher base h =
      .earlyExit ["Unsupported platform: " ++ (h.platform ++ "-" ++ h.arch),
        supportedMsg base] 1 := by
    simp [runLauncher, hk]
  have hmsg : supportedMsg base =
      "Supported platforms: win32-x64, darwin-x64, darwin-arm64, linux-x64, linux-arm64" :=
    rfl
  refine ⟨heq, ?_, ?_, ?_⟩
  · rw [hmsg]
    decide
  · intro call msgs code
    rw [heq]
    simp
  · intro call code
    rw [heq]
    simp

/-- C6 witness: on a freebsd-x64 host the launcher for package codekanban
exits early with code 1 and its supported-platforms line lists win32-x64. -/
theorem c6_unsupported_platform_witness :
    runLauncher "codekanban"
        ⟨"freebsd", "x64", [], fun _ => none, none, none⟩ =
      .earlyExit ["Unsupported platform: " ++ ("freebsd" ++ "-" ++ "x64"),
        supportedMsg "codekanban"] 1 ∧
    "win32-x64".data <:+: (supportedMsg "codekanban").data :=
  have hc := c6_unsupported_platform "codekanban"
    ⟨"freebsd", "x64", [], fun _ => none, none, none⟩ (by decide)
  ⟨hc.1, hc.2.1 "win32-x64" (by decide)⟩

/-- C7: on a host whose key is in the resolution table but whose platform
package does not resolve, the launcher exits with code 1 printing the
remediation text that instructs uninstalling and reinstalling the main
package, and never spawns a binary. -/
theorem c7_missing_package (base : String) (h : LauncherHost) (pkg : String)
    (hk : (launcherTable base).lookup (h.platform ++ "-" ++ h.arch) = some pkg)
    (hr : h.resolveDir pkg = none) :
    runLauncher base h =
      .earlyExit (remediationMsgs (h.platform ++ "-" ++ h.arch) pkg base) 1 ∧
    ("     npm uninstall -g " ++ base) ∈
      remediationMsgs (h.platform ++ "-" ++ h.arch) pkg base ∧
    ("     npm install -g " ++ base) ∈
      remediationMsgs (h.platform ++ "-" ++ h.arch) pkg base ∧
    (∀ call msgs code, runLauncher base h ≠ .spawnFailed call msgs code) ∧
    (∀ call code, runLauncher base h ≠ .ran call code) := by
  have heq : runLauncher base h =
      .earlyExit (remediationMsgs (h.platform ++ "-" ++ h.arch) pkg base) 1 := by
    simp [runLauncher, hk, hr]
  refine ⟨heq, ?_, ?_, ?_, ?_⟩
  · simp [remediationMsgs]
  · simp [remediationMsgs]
  · intro call msgs code
    rw [heq]
    simp
  · intro call code
    rw [heq]
    simp

/-- C7 witness: a linux-x64 host on which the platform package is not
installed makes the launcher exit early with the remediation text. -/
theorem c7_missing_package_witness :
    runLauncher "codekanban"
        ⟨"linux", "x64", [], fun _ => none, none, none⟩ =
      .earlyExit
        (remediationMsgs ("linux" ++ "-" ++ "x64") "@codekanban/linux-x64" "codekanban") 1 ∧
    ("     npm uninstall -g " ++ "codekanban") ∈
      remediationMsgs ("linux" ++ "-" ++ "x64") "@codekanban/linux-x64" "codekanban" :=
  have hc := c7_missing_package "codekanban"
    ⟨"linux", "x64", [], fun _ => none, none, none⟩ "@codekanban/linux-x64"
    (by decide) rfl
  ⟨hc.1, hc.2.1⟩

/-- C8: when the platform package resolves and the spawn raises no error,
the launcher spawns the platform binary with all of its own invocation
arguments and inherited standard streams, and exits with the child's exit
code, defaulting to 0 exactly when the child reports none. -/
theorem c8_spawn_forwarding (base : String) (h : LauncherHost) (pkg dir : String)
    (hk : (launcherTable base).lookup (h.platform ++ "-" ++ h.arch) = some pkg)
    (hr : h.resolveDir pkg = some dir)
    (hs : h.spawnErr = none) :
    runLauncher base h =
      .ran ⟨dir ++ "/" ++ launcherBinName h.platform, h.argv, true⟩
        (h.childExit.getD 0) := by
  cases hce : h.childExit with
  | none => simp [runLauncher, hk, hr, hs, hce]
  | some c =>
    by_cases hc : c = 0
    · simp [runLauncher, hk, hr, hs, hce, hc]
    · simp [runLauncher, hk, hr, hs, hce, hc]

/-- C8 witness: a win32-x64 host with the platform package installed spawns
the exe binary, forwards both arguments, inherits stdio, and exits with the
child's code 7. -/
theorem c8_spawn_forwarding_witness :
    runLauncher "codekanban"
        ⟨"win32", "x64", ["a", "b"],
          fun p => if p == "@codekanban/win32-x64" then some "C:/pkg" else none,
          none, some 7⟩ =
      .ran ⟨"C:/pkg" ++ "/" ++ launcherBinName "win32", ["a", "b"], true⟩
        ((some (7 : Int)).getD 0) :=
  c8_spawn_forwarding "codekanban"
    ⟨"win32", "x64", ["a", "b"],
      fun p => if p == "@codekanban/win32-x64" then some "C:/pkg" else none,
      none, some 7⟩
    "@codekanban/win32-x64" "C:/pkg" (by decide) (by decide) rfl

/-- C9 counterexample: in a GitHub Actions run with NODE_AUTH_TOKEN unset
but npm whoami succeeding, the orchestrator does not fail: it attempts every
publish and returns 0, so the absence of the token alone is not a hard
failure before publishing. -/
theorem c9_counterexample :
    c9World.githubActions = true ∧
    c9World.nodeAuthToken = none ∧
    (publishAll c9World).code = 0 ∧
    (publishAll c9World).attempts ≠ [] := by
  refine ⟨rfl, rfl, ?_, ?_⟩ <;> decide

/-- C9 amended: in a GitHub Actions environment the provenance flag is in
every publish command, and when the npm whoami pre-flight fails, the absence
of NODE_AUTH_TOKEN makes the orchestrator return 1 before any publish
attempt. -/
theorem c9_github_actions_publish (w : PublishWorld)
    (hg : w.githubActions = true) :
    "--provenance" ∈ publishCmd w ∧
    (w.whoamiExit ≠ 0 → w.nodeAuthToken = none →
      (publishAll w).attempts = [] ∧ (publishAll w).code = 1) := by
  constructor
  · simp [publishCmd, hg]
  · intro h1 h2
    by_cases d1 : w.npmPackagesDirExists <;> by_cases d2 : w.mainManifestExists <;>
      simp [publishAll, d1, d2, h1, h2, hg]

/-- C9 witness: a concrete GitHub Actions world with failing whoami and no
token publishes nothing and returns 1, with provenance in the command. -/
theorem c9_github_actions_publish_witness :
    "--provenance" ∈
      publishCmd ⟨true, none, 1, true, true, fun _ => true, fun _ => 0⟩ ∧
    (publishAll ⟨true, none, 1, true, true, fun _ => true, fun _ => 0⟩).attempts = [] ∧
    (publishAll ⟨true, none, 1, true, true, fun _ => true, fun _ => 0⟩).code = 1 :=
  have h := c9_github_actions_publish
    ⟨true, none, 1, true, true, fun _ => true, fun _ => 0⟩ rfl
  ⟨h.1, (h.2 (by decide) rfl).1, (h.2 (by decide) rfl).2⟩

/-- The environment-threading of the build loop: each target's environment
is the ambient environment overlaid with that target's variables, and the
ambient environment leaves the loop unchanged. -/
theorem runMatrixEnvs_spec (ambient : String → Option String) (l : List BuildTarget) :
    (runMatrixEnvs ambient l).1 = l.map (fun u => (u, buildEnvFor ambient u)) ∧
    (runMatrixEnvs ambient l).2 = ambient := by
  induction l with
  | nil => exact ⟨rfl, rfl⟩
  | cons t ts ih =>
    refine ⟨?_, ?_⟩ <;> simp [runMatrixEnvs, ih.1, ih.2]

/-- C10: every toolchain invocation of the build matrix receives its own
copy of the ambient environment extended with its target's GOOS, GOARCH and
CGO_ENABLED values; the ambient environment is unchanged after the loop, and
a target's environment agrees with the ambient one on every other key, so no
iteration observes values set for a previous target. -/
theorem c10_env_isolation (ambient : String → Option String) (t : BuildTarget)
    (_ht : t ∈ buildPlatforms) :
    (runMatrixEnvs ambient buildPlatforms).1 =
      buildPlatforms.map (fun u => (u, buildEnvFor ambient u)) ∧
    (runMatrixEnvs ambient buildPlatforms).2 = ambient ∧
    buildEnvFor ambient t "GOOS" = some t.goos ∧
    buildEnvFor ambient t "GOARCH" = some t.goarch ∧
    buildEnvFor ambient t "CGO_ENABLED" = some "0" ∧
    ∀ k, k ≠ "GOOS" → k ≠ "GOARCH" → k ≠ "CGO_ENABLED" →
      buildEnvFor ambient t k = ambient k := by
  refine ⟨(runMatrixEnvs_spec ambient buildPlatforms).1,
    (runMatrixEnvs_spec ambient buildPlatforms).2, ?_, ?_, ?_, ?_⟩
  · simp [buildEnvFor, envSet]
  · simp [buildEnvFor, envSet]
  · simp [buildEnvFor, envSet]
  · intro k h1 h2 h3
    simp [buildEnvFor, envSet, h1, h2, h3]

/-- C10 witness: for the first matrix target over an empty ambient
environment, GOOS is set to linux and an unrelated key such as PATH stays
unset. -/
theorem c10_env_isolation_witness :
    buildEnvFor (fun _ => none) ⟨"linux", "amd64", "linux", "x64"⟩ "GOOS" =
      some "linux" ∧
    buildEnvFor (fun _ => none) ⟨"linux", "amd64", "linux", "x64"⟩ "CGO_ENABLED" =
      some "0" ∧
    buildEnvFor (fun _ => none) ⟨"linux", "amd64", "linux", "x64"⟩ "PATH" = none :=
  have h := c10_env_isolation (fun _ => none)
    ⟨"linux", "amd64", "linux", "x64"⟩ (by decide)
  ⟨h.2.2.1, h.2.2.2.2.1,
   h.2.2.2.2.2 "PATH" (by decide) (by decide) (by decide)⟩

end CodeKanban
